import Mathlib

/-!
Shallow embedding of `megatron/model/bert_model.py` (BERT heads, ICT
dual-encoder, attention-mask construction, position-id generation).

Tensors are embedded as explicit shapes together with total index
functions; an index that belongs to a dimension of size 1 (or to a
broadcast dimension) is ignored by the data function, which is exactly
PyTorch's broadcast semantics for the operations used in the source.
Numeric tensor entries are modelled in `ℚ` (the source values 0, 1 and
-10000.0 are exact in every floating dtype, so the dtype cast in
`bert_extended_attention_mask` is the identity on the values involved);
integer (`torch.long`) tensors are modelled over `ℤ`.

Sub-modules that the source obtains from other files of the repository
(`get_language_model`, `get_linear_layer`, `LayerNorm`, `gelu`) enter
the embedding as abstract functions; `parallel_lm_logits` and the
`torch.nn.Module` state-dict semantics are modelled from the spec, as
marked on their doc comments.
-/

set_option autoImplicit false

namespace Megatron

/-- A 1-D tensor: shape `[size0]` plus a total index function. -/
@[ext]
structure Tensor1 (α : Type) where
  size0 : ℕ
  data : ℕ → α

/-- A 2-D tensor: shape `[size0, size1]` plus a total index function. -/
@[ext]
structure Tensor2 (α : Type) where
  size0 : ℕ
  size1 : ℕ
  data : ℕ → ℕ → α

/-- A 3-D tensor. -/
@[ext]
structure Tensor3 (α : Type) where
  size0 : ℕ
  size1 : ℕ
  size2 : ℕ
  data : ℕ → ℕ → ℕ → α

/-- A 4-D tensor. -/
@[ext]
structure Tensor4 (α : Type) where
  size0 : ℕ
  size1 : ℕ
  size2 : ℕ
  size3 : ℕ
  data : ℕ → ℕ → ℕ → ℕ → α

/-- PyTorch broadcast of one dimension: a size-1 dimension stretches to the
other size; otherwise the sizes must agree and the common size is kept. -/
def broadcastDim (m n : ℕ) : ℕ :=
  if m = 1 then n else if n = 1 then m else m

/-- `t.unsqueeze(1)` on a 2-D tensor: `[b, s] → [b, 1, s]`.  The new
dimension has size 1 and its index is ignored. -/
def Tensor2.unsqueeze_dim1 {α : Type} (t : Tensor2 α) : Tensor3 α :=
  ⟨t.size0, 1, t.size1, fun i _ k => t.data i k⟩

/-- `t.unsqueeze(2)` on a 2-D tensor: `[b, s] → [b, s, 1]`. -/
def Tensor2.unsqueeze_dim2 {α : Type} (t : Tensor2 α) : Tensor3 α :=
  ⟨t.size0, t.size1, 1, fun i q _ => t.data i q⟩

/-- `t.unsqueeze(1)` on a 3-D tensor: `[b, s, s] → [b, 1, s, s]`. -/
def Tensor3.unsqueeze_dim1 {α : Type} (t : Tensor3 α) : Tensor4 α :=
  ⟨t.size0, 1, t.size1, t.size2, fun i _ q k => t.data i q k⟩

/-- `v.unsqueeze(0)` on a 1-D tensor: `[s] → [1, s]`. -/
def Tensor1.unsqueeze_dim0 {α : Type} (t : Tensor1 α) : Tensor2 α :=
  ⟨1, t.size0, fun _ j => t.data j⟩

/-- Broadcasting elementwise product of two 3-D tensors (`a * b` in the
source, used on `[b,1,s] * [b,s,1]`).  Size-1 dimensions have constant
data in their index, so pointwise multiplication of the total index
functions realizes the broadcast. -/
def Tensor3.bmul (a b : Tensor3 ℚ) : Tensor3 ℚ :=
  ⟨broadcastDim a.size0 b.size0, broadcastDim a.size1 b.size1,
   broadcastDim a.size2 b.size2,
   fun i q k => a.data i q k * b.data i q k⟩

/-- Broadcasting elementwise sum of two 4-D tensors (`a + b` in the
source, used on scores `[b, n, s, s]` plus mask `[b, 1, s, s]`). -/
def Tensor4.badd (a b : Tensor4 ℚ) : Tensor4 ℚ :=
  ⟨broadcastDim a.size0 b.size0, broadcastDim a.size1 b.size1,
   broadcastDim a.size2 b.size2, broadcastDim a.size3 b.size3,
   fun i j q k => a.data i j q k + b.data i j q k⟩

/-- `(1.0 - t) * -10000.0` applied to a 4-D tensor, the final line of
`bert_extended_attention_mask`. -/
def Tensor4.oneSubTimesNeg10000 (t : Tensor4 ℚ) : Tensor4 ℚ :=
  { t with data := fun i j q k => (1 - t.data i j q k) * (-10000) }

/-- `1 - t` on a 2-D tensor (scalar minus tensor, as in
`ICTBertModel.forward`). -/
def Tensor2.oneSub (t : Tensor2 ℚ) : Tensor2 ℚ :=
  { t with data := fun i j => 1 - t.data i j }

/-- `torch.transpose(t, 0, 1)` on a 2-D tensor. -/
def Tensor2.transpose01 (t : Tensor2 ℚ) : Tensor2 ℚ :=
  ⟨t.size1, t.size0, fun i j => t.data j i⟩

/-- `a.matmul(b)` on 2-D tensors: the contraction runs over `a`'s second
dimension. -/
def Tensor2.matmul (a b : Tensor2 ℚ) : Tensor2 ℚ :=
  ⟨a.size0, b.size1,
   fun i j => (Finset.range a.size1).sum fun k => a.data i k * b.data k j⟩

/-- `torch.arange(n)` (dtype long). -/
def arange (n : ℕ) : Tensor1 ℤ :=
  ⟨n, fun i => (i : ℤ)⟩

/-- `m.expand_as(t)`: stretch `m`'s size-1 dimensions to `t`'s shape.
Size-1 dimensions have constant data in their index, so the data
function is reused unchanged. -/
def Tensor2.expand_as {α : Type} (m t : Tensor2 α) : Tensor2 α :=
  ⟨t.size0, t.size1, m.data⟩

/-- `bert_attention_mask_func(attention_scores, attention_mask)`:
`attention_scores = attention_scores + attention_mask`. -/
def bert_attention_mask_func (attention_scores attention_mask : Tensor4 ℚ) :
    Tensor4 ℚ :=
  attention_scores.badd attention_mask

/-- `bert_extended_attention_mask(attention_mask, dtype)`.  The
`.to(dtype=dtype)` cast is the identity on our exact `ℚ` values. -/
def bert_extended_attention_mask (attention_mask : Tensor2 ℚ) : Tensor4 ℚ :=
  -- [b, 1, s]
  let attention_mask_b1s := attention_mask.unsqueeze_dim1
  -- [b, s, 1]
  let attention_mask_bs1 := attention_mask.unsqueeze_dim2
  -- [b, s, s]
  let attention_mask_bss := attention_mask_b1s.bmul attention_mask_bs1
  -- [b, 1, s, s]
  let extended_attention_mask := attention_mask_bss.unsqueeze_dim1
  extended_attention_mask.oneSubTimesNeg10000

/-- `bert_position_ids(token_ids)`. -/
def bert_position_ids (token_ids : Tensor2 ℤ) : Tensor2 ℤ :=
  let seq_length := token_ids.size1
  let position_ids := arange seq_length
  position_ids.unsqueeze_dim0.expand_as token_ids

/-- Embedding of `BertModel`.  `V` is the type of the tensor values the
sub-modules exchange and `S` the type of one sub-module's parameter
state.  The transformer backbone returned by `get_language_model` and
the head layers built by `get_linear_layer` / `BertLMHead` live in
other files of the repository, so they enter the model as abstract
function fields; `language_model` returns the pair
`(lm_output, pooled_output)` (when no pooler was requested the source
unpacks only the first component, which is the only one this embedding
uses in that case).  In Python the head attributes exist only when the
configuration adds them; here the fields always exist and every use is
guarded by the same flags as in the source. -/
structure BertModel (V S : Type) where
  add_binary_head : Bool
  ict_head_size : Option ℕ
  parallel_output : Bool
  language_model : Tensor2 ℤ → Tensor2 ℤ → Tensor4 ℚ → Option (Tensor2 ℤ) → V × V
  word_embeddings_weight : V
  lm_head : V → V → V
  binary_head : V → V
  ict_head : V → V
  language_model_state : S
  lm_head_state : S
  binary_head_state : S
  ict_head_state : S

/-- `self.add_ict_head = ict_head_size is not None`. -/
def BertModel.add_ict_head {V S : Type} (m : BertModel V S) : Bool :=
  m.ict_head_size.isSome

/-- `BertModel.__init__`: runs the head-exclusivity assertion
(`assert not (self.add_binary_head and self.add_ict_head)`) and then
builds the model.  The externally constructed sub-modules and their
parameter states are passed in; `Except.error` models the raised
`AssertionError`. -/
def BertModel.init (V S : Type) (add_binary_head : Bool)
    (ict_head_size : Option ℕ) (parallel_output : Bool)
    (language_model : Tensor2 ℤ → Tensor2 ℤ → Tensor4 ℚ → Option (Tensor2 ℤ) → V × V)
    (word_embeddings_weight : V) (lm_head : V → V → V)
    (binary_head ict_head : V → V)
    (language_model_state lm_head_state binary_head_state ict_head_state : S) :
    Except String (BertModel V S) :=
  if add_binary_head && ict_head_size.isSome then
    Except.error "AssertionError: not (add_binary_head and add_ict_head)"
  else
    Except.ok
      { add_binary_head := add_binary_head
        ict_head_size := ict_head_size
        parallel_output := parallel_output
        language_model := language_model
        word_embeddings_weight := word_embeddings_weight
        lm_head := lm_head
        binary_head := binary_head
        ict_head := ict_head
        language_model_state := language_model_state
        lm_head_state := lm_head_state
        binary_head_state := binary_head_state
        ict_head_state := ict_head_state }

/-- `BertModel.forward`.  The dtype passed to
`bert_extended_attention_mask` is dropped (the cast is the identity in
this embedding). -/
def BertModel.forward {V S : Type} (m : BertModel V S) (input_ids : Tensor2 ℤ)
    (attention_mask : Tensor2 ℚ) (tokentype_ids : Option (Tensor2 ℤ)) :
    V × Option V :=
  let extended_attention_mask := bert_extended_attention_mask attention_mask
  let position_ids := bert_position_ids input_ids
  let lm_pooled :=
    m.language_model input_ids position_ids extended_attention_mask tokentype_ids
  let lm_output := lm_pooled.1
  let pooled_output := lm_pooled.2
  if m.add_ict_head then
    (m.ict_head pooled_output, none)
  else
    let lm_logits := m.lm_head lm_output m.word_embeddings_weight
    if m.add_binary_head then
      (lm_logits, some (m.binary_head pooled_output))
    else
      (lm_logits, none)

/-- Modelled from the spec: the checkpoint key that `get_language_model`
(megatron/model/language_model.py, not part of this file) returns as
`self._language_model_key`; the spec names the nested key
`language_model`. -/
def language_model_key : String := "language_model"

/-- `self._lm_head_key = 'lm_head'`. -/
def lm_head_key : String := "lm_head"

/-- `self._binary_head_key = 'binary_head'`. -/
def binary_head_key : String := "binary_head"

/-- `self._ict_head_key = 'ict_head'`. -/
def ict_head_key : String := "ict_head"

/-- `BertModel.state_dict_for_save_checkpoint`.  A checkpoint dictionary
is an association list from key strings to sub-module states.  The
sub-modules' own `state_dict(_for_save_checkpoint)` calls are external
`torch.nn.Module` code, modelled from the spec as returning the
sub-module's full parameter state. -/
def BertModel.state_dict_for_save_checkpoint {V S : Type}
    (m : BertModel V S) : List (String × S) :=
  [(language_model_key, m.language_model_state)]
  ++ (if !m.add_ict_head then [(lm_head_key, m.lm_head_state)] else [])
  ++ (if m.add_binary_head then [(binary_head_key, m.binary_head_state)]
      else if m.add_ict_head then [(ict_head_key, m.ict_head_state)] else [])

/-- `state_dict[key]`: Python dict lookup; `none` models a `KeyError`. -/
def sdGet {S : Type} (state_dict : List (String × S)) (k : String) :
    Option S :=
  (state_dict.find? fun p => p.1 == k).map Prod.snd

/-- `BertModel.load_state_dict`.  The sub-modules' `load_state_dict`
calls are external `torch.nn.Module` code, modelled from the spec as
replacing the sub-module's parameter state with the loaded one; a
missing key (Python `KeyError`) makes the whole load return `none`. -/
def BertModel.load_state_dict {V S : Type} (m : BertModel V S)
    (state_dict : List (String × S)) : Option (BertModel V S) := do
  let lm ← sdGet state_dict language_model_key
  let m1 := { m with language_model_state := lm }
  let m2 ←
    if !m1.add_ict_head then do
      let h ← sdGet state_dict lm_head_key
      pure { m1 with lm_head_state := h }
    else
      pure m1
  if m2.add_binary_head then do
    let h ← sdGet state_dict binary_head_key
    pure { m2 with binary_head_state := h }
  else if m2.add_ict_head then do
    let h ← sdGet state_dict ict_head_key
    pure { m2 with ict_head_state := h }
  else
    pure m2

/-- Embedding of `BertLMHead`.  The `dense` layer built by
`get_linear_layer` and the `LayerNorm` module live in other files of
the repository, so they enter as abstract functions on 2-D tensors. -/
structure BertLMHead where
  bias : Tensor1 ℚ
  bias_model_parallel : Bool
  bias_partition_dim : ℕ
  bias_stride : ℕ
  parallel_output : Bool
  dense : Tensor2 ℚ → Tensor2 ℚ
  layernorm : Tensor2 ℚ → Tensor2 ℚ

/-- `BertLMHead.__init__`: the bias is `torch.zeros(mpu_vocab_size)`
with `model_parallel = True`, `partition_dim = 0`, `stride = 1`.
`hidden_size`, `init_method` and `layernorm_epsilon` only feed the
external `get_linear_layer` / `LayerNorm` constructors, whose results
are the `dense` and `layernorm` arguments. -/
def BertLMHead.init (mpu_vocab_size : ℕ)
    (dense layernorm : Tensor2 ℚ → Tensor2 ℚ) (parallel_output : Bool) :
    BertLMHead :=
  { bias := ⟨mpu_vocab_size, fun _ => 0⟩
    bias_model_parallel := true
    bias_partition_dim := 0
    bias_stride := 1
    parallel_output := parallel_output
    dense := dense
    layernorm := layernorm }

/-- Modelled from the spec: `parallel_lm_logits`
(megatron/model/language_model.py, not part of this file) projects the
hidden states through the transpose of the word-embeddings weight — the
shared embedding-transpose trick — and adds the bias. -/
def parallel_lm_logits (hidden_states word_embeddings_weight : Tensor2 ℚ)
    (_parallel_output : Bool) (bias : Tensor1 ℚ) : Tensor2 ℚ :=
  ⟨hidden_states.size0, word_embeddings_weight.size0,
   fun i v =>
     ((Finset.range hidden_states.size1).sum fun k =>
       hidden_states.data i k * word_embeddings_weight.data v k)
     + bias.data v⟩

/-- `BertLMHead.forward`: dense, gelu, layernorm, then
`parallel_lm_logits` with the head's bias.  `gelu` (from
megatron/model/utils.py, not part of this file) is passed as an
abstract activation. -/
def BertLMHead.forward (head : BertLMHead)
    (gelu : Tensor2 ℚ → Tensor2 ℚ)
    (hidden_states word_embeddings_weight : Tensor2 ℚ) : Tensor2 ℚ :=
  let h1 := head.dense hidden_states
  let h2 := gelu h1
  let h3 := head.layernorm h2
  parallel_lm_logits h3 word_embeddings_weight head.parallel_output head.bias

/-- Embedding of `ICTBertModel`'s encoder pair.  The ICT logits are
concrete 2-D tensors so that the retrieval matmul can be stated. -/
structure ICTBertModel (S : Type) where
  question_model : BertModel (Tensor2 ℚ) S
  context_model : BertModel (Tensor2 ℚ) S

/-- `ICTBertModel.forward`: each encoder is run on its tokens with the
inverted mask `1 - attention_mask`, the second component of each result
is discarded, and the retrieval scores are
`question_ict_logits.matmul(torch.transpose(context_ict_logits, 0, 1))`. -/
def ICTBertModel.forward {S : Type} (m : ICTBertModel S)
    (input_tokens : Tensor2 ℤ) (input_attention_mask : Tensor2 ℚ)
    (input_types : Option (Tensor2 ℤ)) (context_tokens : Tensor2 ℤ)
    (context_attention_mask : Tensor2 ℚ)
    (context_types : Option (Tensor2 ℤ)) : Tensor2 ℚ :=
  let question_ict_logits :=
    (m.question_model.forward input_tokens input_attention_mask.oneSub
      input_types).1
  let context_ict_logits :=
    (m.context_model.forward context_tokens context_attention_mask.oneSub
      context_types).1
  -- [batch x h] * [h x batch]
  question_ict_logits.matmul context_ict_logits.transpose01

/-- The parameter names accepted by `BertModel.__init__`
(besides `self`). -/
def bertModelInitParams : List String :=
  ["num_tokentypes", "add_binary_head", "ict_head_size", "parallel_output"]

/-- The keys of the `bert_args` dict built by `ICTBertModel.__init__`,
in source order. -/
def ictBertArgsKeys : List String :=
  ["num_layers", "vocab_size", "hidden_size", "num_attention_heads",
   "embedding_dropout_prob", "attention_dropout_prob",
   "output_dropout_prob", "max_sequence_length",
   "checkpoint_activations", "add_binary_head", "ict_head_size",
   "checkpoint_num_layers", "layernorm_epsilon", "init_method_std",
   "num_tokentypes", "parallel_output", "apply_query_key_layer_scaling",
   "attention_softmax_in_fp32"]

/-- Python call semantics for `BertModel(**kwargs)`: a keyword that is
not a parameter name of `BertModel.__init__` raises `TypeError` before
the constructor body runs. -/
def callBertModelKwargs (kwargs : List String) : Except String Unit :=
  match kwargs.find? fun k => !(bertModelInitParams.contains k) with
  | some k =>
    Except.error
      ("TypeError: __init__() got an unexpected keyword argument " ++ k)
  | none => Except.ok ()

/-- Concrete mask used as a witness input. -/
def witnessMask : Tensor2 ℚ :=
  ⟨1, 2, fun _ j => if j = 0 then 1 else 0⟩

/-- Two token tensors of shape `[2, 3]` with different entries. -/
def witnessTokensA : Tensor2 ℤ := ⟨2, 3, fun _ _ => 5⟩

/-- Same shape as `witnessTokensA`, different entries. -/
def witnessTokensB : Tensor2 ℤ := ⟨2, 3, fun i j => (i : ℤ) * 7 + j⟩

/-- A concrete `BertModel` in the ICT-head configuration, used as a
witness input. -/
def witnessBert : BertModel ℚ ℚ :=
  { add_binary_head := false
    ict_head_size := some 4
    parallel_output := true
    language_model := fun _ _ _ _ => (3, 5)
    word_embeddings_weight := 2
    lm_head := fun a b => a * b
    binary_head := fun a => a + 1
    ict_head := fun a => a * 10
    language_model_state := 11
    lm_head_state := 12
    binary_head_state := 13
    ict_head_state := 14 }

/-- A concrete ICT encoder whose pooled output (hence ICT logits, via an
identity head) is the `[1, 2]` tensor `[[0, 1]]`. -/
def witnessIctEncoder : BertModel (Tensor2 ℚ) ℚ :=
  { add_binary_head := false
    ict_head_size := some 2
    parallel_output := true
    language_model := fun _ _ _ _ =>
      (⟨1, 2, fun _ _ => 1⟩, ⟨1, 2, fun _ j => (j : ℚ)⟩)
    word_embeddings_weight := ⟨1, 1, fun _ _ => 0⟩
    lm_head := fun a _ => a
    binary_head := fun a => a
    ict_head := fun a => a
    language_model_state := 0
    lm_head_state := 0
    binary_head_state := 0
    ict_head_state := 0 }

/-- A concrete `ICTBertModel` used as a witness input. -/
def witnessIct : ICTBertModel ℚ :=
  ⟨witnessIctEncoder, witnessIctEncoder⟩

end Megatron

namespace Megatron

/-- C1: for a 0/1-valued mask of shape `[b, s]`,
`bert_extended_attention_mask` returns a `[b, 1, s, s]` tensor whose
entry at `[i, 0, q, k]` is `0` when both `mask[i, q]` and `mask[i, k]`
are `1` and `-10000` otherwise, and `bert_attention_mask_func` adds the
mask to the attention scores elementwise. -/
theorem extended_attention_mask_values (m : Tensor2 ℚ)
    (h : ∀ i q : ℕ, m.data i q = 0 ∨ m.data i q = 1) :
    (bert_extended_attention_mask m).size0 = m.size0
    ∧ (bert_extended_attention_mask m).size1 = 1
    ∧ (bert_extended_attention_mask m).size2 = m.size1
    ∧ (bert_extended_attention_mask m).size3 = m.size1
    ∧ (∀ i q k : ℕ, (bert_extended_attention_mask m).data i 0 q k =
        if m.data i q = 1 ∧ m.data i k = 1 then 0 else -10000)
    ∧ (∀ s mk : Tensor4 ℚ, ∀ i j q k : ℕ,
        (bert_attention_mask_func s mk).data i j q k =
          s.data i j q k + mk.data i j q k) := by
  refine ⟨?_, rfl, ?_, ?_, ?_, fun s mk i j q k => rfl⟩
  · simp only [bert_extended_attention_mask, Tensor3.unsqueeze_dim1,
      Tensor3.bmul, Tensor2.unsqueeze_dim1, Tensor2.unsqueeze_dim2,
      Tensor4.oneSubTimesNeg10000, broadcastDim]
    split <;> simp_all
  · simp [bert_extended_attention_mask, Tensor3.unsqueeze_dim1,
      Tensor3.bmul, Tensor2.unsqueeze_dim1, Tensor2.unsqueeze_dim2,
      Tensor4.oneSubTimesNeg10000, broadcastDim]
  · simp only [bert_extended_attention_mask, Tensor3.unsqueeze_dim1,
      Tensor3.bmul, Tensor2.unsqueeze_dim1, Tensor2.unsqueeze_dim2,
      Tensor4.oneSubTimesNeg10000, broadcastDim]
    split <;> simp_all
  · intro i q k
    rcases h i q with hq | hq <;> rcases h i k with hk | hk <;>
      simp [bert_extended_attention_mask, Tensor3.unsqueeze_dim1,
        Tensor3.bmul, Tensor2.unsqueeze_dim1, Tensor2.unsqueeze_dim2,
        Tensor4.oneSubTimesNeg10000, hq, hk]

theorem extended_attention_mask_values_witness :
    (bert_extended_attention_mask witnessMask).size2 = 2
    ∧ (bert_extended_attention_mask witnessMask).data 0 0 0 0 = 0
    ∧ (bert_extended_attention_mask witnessMask).data 0 0 0 1 = -10000 := by
  have h := extended_attention_mask_values witnessMask
    (fun i q => by
      by_cases hq : q = 0
      · exact Or.inr (by simp [witnessMask, hq])
      · exact Or.inl (by simp [witnessMask, hq]))
  refine ⟨h.2.2.1, ?_, ?_⟩
  · rw [h.2.2.2.2.1 0 0 0]
    norm_num [witnessMask]
  · rw [h.2.2.2.2.1 0 0 1]
    norm_num [witnessMask]

/-- C2: `bert_position_ids` keeps the `[b, s]` shape of `token_ids` and
every row of the result is `0, 1, ..., s-1`. -/
theorem bert_position_ids_spec (token_ids : Tensor2 ℤ) :
    (bert_position_ids token_ids).size0 = token_ids.size0
    ∧ (bert_position_ids token_ids).size1 = token_ids.size1
    ∧ (∀ i j : ℕ, (bert_position_ids token_ids).data i j = (j : ℤ)) :=
  ⟨rfl, rfl, fun _ _ => rfl⟩

/-- C9: the extended attention mask is symmetric in the two sequence
positions: `output[i, 0, q, k] = output[i, 0, k, q]`. -/
theorem extended_attention_mask_symm (m : Tensor2 ℚ) (i q k : ℕ) :
    (bert_extended_attention_mask m).data i 0 q k =
      (bert_extended_attention_mask m).data i 0 k q := by
  simp only [bert_extended_attention_mask, Tensor3.unsqueeze_dim1,
    Tensor3.bmul, Tensor2.unsqueeze_dim1, Tensor2.unsqueeze_dim2,
    Tensor4.oneSubTimesNeg10000]
  ring

/-- C10: `bert_position_ids` depends only on the shape of its input:
token tensors of equal shape give equal position-id tensors. -/
theorem bert_position_ids_shape_only (t1 t2 : Tensor2 ℤ)
    (h0 : t1.size0 = t2.size0) (h1 : t1.size1 = t2.size1) :
    bert_position_ids t1 = bert_position_ids t2 := by
  unfold bert_position_ids Tensor2.expand_as Tensor1.unsqueeze_dim0 arange
  rw [h0, h1]

theorem bert_position_ids_shape_only_witness :
    bert_position_ids witnessTokensA = bert_position_ids witnessTokensB :=
  bert_position_ids_shape_only witnessTokensA witnessTokensB rfl rfl

/-- C8: `BertModel.__init__` raises `AssertionError` exactly when both
the binary head and the ICT head are requested (`add_binary_head` true
and `ict_head_size` not `None`), and constructs a model otherwise. -/
theorem bertModel_init_head_exclusive (V S : Type) (add_binary_head : Bool)
    (ict_head_size : Option ℕ) (parallel_output : Bool)
    (language_model :
      Tensor2 ℤ → Tensor2 ℤ → Tensor4 ℚ → Option (Tensor2 ℤ) → V × V)
    (word_embeddings_weight : V) (lm_head : V → V → V)
    (binary_head ict_head : V → V)
    (language_model_state lm_head_state binary_head_state ict_head_state : S) :
    (BertModel.init V S add_binary_head ict_head_size parallel_output
        language_model word_embeddings_weight lm_head binary_head ict_head
        language_model_state lm_head_state binary_head_state ict_head_state =
      Except.error "AssertionError: not (add_binary_head and add_ict_head)"
      ↔ (add_binary_head = true ∧ ict_head_size.isSome = true))
    ∧ ((∃ mdl, BertModel.init V S add_binary_head ict_head_size
          parallel_output language_model word_embeddings_weight lm_head
          binary_head ict_head language_model_state lm_head_state
          binary_head_state ict_head_state = Except.ok mdl)
      ↔ ¬(add_binary_head = true ∧ ict_head_size.isSome = true)) := by
  cases add_binary_head <;> cases ict_head_size <;>
    simp [BertModel.init]

/-- C5: for every head configuration that passes the constructor's
assertion, the checkpoint dictionary saved by
`state_dict_for_save_checkpoint` has exactly the keys for the
constructed sub-modules (`language_model` always, `lm_head` iff no ICT
head, `binary_head` iff the binary head was added, `ict_head` iff the
ICT head was added), and `load_state_dict` on that dictionary succeeds
and restores the model state. -/
theorem bertModel_state_dict_roundtrip (V S : Type) (m : BertModel V S)
    (h : ¬(m.add_binary_head = true ∧ m.add_ict_head = true)) :
    (m.state_dict_for_save_checkpoint.map Prod.fst =
        if m.add_ict_head then [language_model_key, ict_head_key]
        else if m.add_binary_head then
          [language_model_key, lm_head_key, binary_head_key]
        else [language_model_key, lm_head_key])
    ∧ m.load_state_dict m.state_dict_for_save_checkpoint = some m := by
  obtain ⟨abh, ihs, po, lm, w, lmh, bh, ih, s1, s2, s3, s4⟩ := m
  cases abh <;> cases ihs <;>
    simp_all [BertModel.state_dict_for_save_checkpoint,
      BertModel.load_state_dict, BertModel.add_ict_head, sdGet,
      language_model_key, lm_head_key, binary_head_key, ict_head_key]

theorem bertModel_state_dict_roundtrip_witness :
    witnessBert.state_dict_for_save_checkpoint.map Prod.fst =
      [language_model_key, ict_head_key]
    ∧ witnessBert.load_state_dict
        witnessBert.state_dict_for_save_checkpoint = some witnessBert := by
  have h := bertModel_state_dict_roundtrip ℚ ℚ witnessBert
    (by simp [witnessBert, BertModel.add_ict_head])
  refine ⟨?_, h.2⟩
  rw [h.1]
  simp [witnessBert, BertModel.add_ict_head]

/-- C7: the head configuration alone determines the shape of
`BertModel.forward`'s result pair: with the ICT head it is
`(ict_logits, None)`, with the binary head `(lm_logits, binary_logits)`,
with neither `(lm_logits, None)`, where `lm_logits` comes from the MLM
head applied to the language-model output and the word-embeddings
weight. -/
theorem bertModel_forward_heads (V S : Type) (m : BertModel V S)
    (input_ids : Tensor2 ℤ) (attention_mask : Tensor2 ℚ)
    (tokentype_ids : Option (Tensor2 ℤ)) :
    (m.add_ict_head = true →
      m.forward input_ids attention_mask tokentype_ids =
        (m.ict_head (m.language_model input_ids (bert_position_ids input_ids)
            (bert_extended_attention_mask attention_mask) tokentype_ids).2,
         none))
    ∧ (m.add_ict_head = false → m.add_binary_head = true →
      m.forward input_ids attention_mask tokentype_ids =
        (m.lm_head (m.language_model input_ids (bert_position_ids input_ids)
            (bert_extended_attention_mask attention_mask) tokentype_ids).1
          m.word_embeddings_weight,
         some (m.binary_head
            (m.language_model input_ids (bert_position_ids input_ids)
              (bert_extended_attention_mask attention_mask)
              tokentype_ids).2)))
    ∧ (m.add_ict_head = false → m.add_binary_head = false →
      m.forward input_ids attention_mask tokentype_ids =
        (m.lm_head (m.language_model input_ids (bert_position_ids input_ids)
            (bert_extended_attention_mask attention_mask) tokentype_ids).1
          m.word_embeddings_weight,
         none)) := by
  refine ⟨fun h1 => ?_, fun h1 h2 => ?_, fun h1 h2 => ?_⟩ <;>
    simp [BertModel.forward, h1]
  · simp [h2]
  · simp [h2]

theorem bertModel_forward_heads_witness :
    witnessBert.forward witnessTokensA witnessMask none = (50, none) := by
  have h := (bertModel_forward_heads ℚ ℚ witnessBert witnessTokensA
    witnessMask none).1 rfl
  rw [h]
  norm_num [witnessBert]

/-- C6: the MLM head built by `BertLMHead.__init__` has a dedicated
zero-initialized bias of length `mpu_vocab_size` with
`model_parallel = True`, `partition_dim = 0`, `stride = 1`, and its
forward pass applies dense, gelu and layernorm to the hidden states and
projects through the transpose of the externally supplied
word-embeddings weight, adding that bias. -/
theorem bertLMHead_spec (mpu_vocab_size : ℕ)
    (dense layernorm gelu : Tensor2 ℚ → Tensor2 ℚ) (parallel_output : Bool)
    (hidden_states word_embeddings_weight : Tensor2 ℚ) :
    (BertLMHead.init mpu_vocab_size dense layernorm
        parallel_output).bias.size0 = mpu_vocab_size
    ∧ (∀ v : ℕ, (BertLMHead.init mpu_vocab_size dense layernorm
        parallel_output).bias.data v = 0)
    ∧ (BertLMHead.init mpu_vocab_size dense layernorm
        parallel_output).bias_model_parallel = true
    ∧ (BertLMHead.init mpu_vocab_size dense layernorm
        parallel_output).bias_partition_dim = 0
    ∧ (BertLMHead.init mpu_vocab_size dense layernorm
        parallel_output).bias_stride = 1
    ∧ (∀ i v : ℕ,
        ((BertLMHead.init mpu_vocab_size dense layernorm
            parallel_output).forward gelu hidden_states
          word_embeddings_weight).data i v =
        ((Finset.range (layernorm (gelu (dense hidden_states))).size1).sum
          fun k => (layernorm (gelu (dense hidden_states))).data i k *
            word_embeddings_weight.data v k)
        + (BertLMHead.init mpu_vocab_size dense layernorm
            parallel_output).bias.data v) :=
  ⟨rfl, fun _ => rfl, rfl, rfl, rfl, fun _ _ => rfl⟩

/-- C3: `ICTBertModel.forward` returns the `[batch, batch]` matrix
`Q * transpose(C)` of the question ICT logits `Q` against the context
ICT logits `C`: the entry at `[i, j]` is the dot product of the `i`-th
question embedding with the `j`-th context embedding. -/
theorem ictBertModel_forward_scores (S : Type) (m : ICTBertModel S)
    (batch hdim : ℕ) (input_tokens context_tokens : Tensor2 ℤ)
    (input_attention_mask context_attention_mask : Tensor2 ℚ)
    (input_types context_types : Option (Tensor2 ℤ))
    (q c : Tensor2 ℚ)
    (hq : (m.question_model.forward input_tokens
        input_attention_mask.oneSub input_types).1 = q)
    (hc : (m.context_model.forward context_tokens
        context_attention_mask.oneSub context_types).1 = c)
    (hq0 : q.size0 = batch) (hq1 : q.size1 = hdim)
    (hc0 : c.size0 = batch) (_hc1 : c.size1 = hdim) :
    (m.forward input_tokens input_attention_mask input_types
        context_tokens context_attention_mask context_types).size0 = batch
    ∧ (m.forward input_tokens input_attention_mask input_types
        context_tokens context_attention_mask context_types).size1 = batch
    ∧ (∀ i j : ℕ,
        (m.forward input_tokens input_attention_mask input_types
          context_tokens context_attention_mask context_types).data i j =
        (Finset.range hdim).sum fun k => q.data i k * c.data j k) := by
  unfold ICTBertModel.forward
  rw [hq, hc]
  refine ⟨hq0, ?_, ?_⟩
  · simpa [Tensor2.matmul, Tensor2.transpose01] using hc0
  · intro i j
    simp [Tensor2.matmul, Tensor2.transpose01, hq1]

theorem ictBertModel_forward_scores_witness :
    (witnessIct.forward witnessTokensA witnessMask none witnessTokensB
        witnessMask none).size0 = 1
    ∧ (witnessIct.forward witnessTokensA witnessMask none witnessTokensB
        witnessMask none).size1 = 1
    ∧ (witnessIct.forward witnessTokensA witnessMask none witnessTokensB
        witnessMask none).data 0 0 = 1 := by
  have h := ictBertModel_forward_scores ℚ witnessIct 1 2 witnessTokensA
    witnessTokensB witnessMask witnessMask none none
    ⟨1, 2, fun _ j => (j : ℚ)⟩ ⟨1, 2, fun _ j => (j : ℚ)⟩
    rfl rfl rfl rfl rfl rfl
  refine ⟨h.1, h.2.1, ?_⟩
  rw [h.2.2 0 0]
  norm_num [Finset.sum_range_succ]

/-- C4 (code bug): `ICTBertModel.__init__` builds `bert_args` whose
first key is `num_layers`, which is not a parameter of
`BertModel.__init__`, so the call `BertModel(**bert_args)` raises
`TypeError` instead of constructing the question encoder. -/
theorem ictBertModel_init_type_error :
    callBertModelKwargs ictBertArgsKeys =
      Except.error
        "TypeError: __init__() got an unexpected keyword argument num_layers" := by
  rfl

end Megatron
